import Mathlib

set_option maxRecDepth 100000

/-!
Shallow embedding of the sitronix-touch driver (src/lib.rs).

The driver owns an I2C bus and a device address and decodes raw register
bytes into typed values.  The bus is modelled as an oracle: a list of
pending responses (each either a byte payload or a bus error code), plus a
log of the transactions issued so far.  Every `write_read` consumes one
pending response and appends one `Transaction` to the log.  Machine bytes
are `Nat` reduced mod 256 at the read boundary, matching the `u8` buffers
of the source; all subsequent u16 arithmetic in the source stays below
2^16, so plain `Nat` arithmetic coincides with it.

Outcomes: `Outcome.ok` is Rust `Ok`, `Outcome.err e` is `Err(e)` for a bus
error with code `e`, `Outcome.panicked` models a Rust panic (the
`unreachable!()` arm of `GestureType::from_u8`), and `Outcome.noResponse`
is a model artifact meaning the oracle ran out of responses (a real bus
always answers, so theorems supply enough responses).
-/

def DEFAULT_ADDR : Nat := 0x55

namespace regs

def STATUS : Nat := 0x01

def CONTACT_COUNT_MAX : Nat := 0x3F

def MISC_INFO : Nat := 0xF0

def XY_RESOLUTION_H : Nat := 0x04

def X_RESOLUTION_L : Nat := 0x05

def Y_RESOLUTION_L : Nat := 0x06

def SENSING_COUNTER_L : Nat := 0x07

def SENSING_COUNTER_H : Nat := 0x08

def ADVANCED_TOUCH_INFO : Nat := 0x10

end regs

/-- A single I2C `write_read` transaction: device address, the bytes
written (the register address), and how many bytes were read back. -/
structure Transaction where
  addr : Nat
  writeBytes : List Nat
  readLen : Nat
deriving DecidableEq, Repr

/-- One response of the bus oracle: either payload bytes or a bus error. -/
inductive Response where
  | ok (bytes : List Nat)
  | err (e : Nat)
deriving DecidableEq, Repr

/-- The bus oracle: responses still pending, and the transaction log. -/
structure Bus where
  pending : List Response
  log : List Transaction
deriving DecidableEq, Repr

/-- Result of a driver operation. -/
inductive Outcome (α : Type) where
  | ok (a : α)
  | err (e : Nat)
  | panicked
  | noResponse
deriving DecidableEq, Repr

/-- The driver handle (`TouchIC<I2C>`): it owns the bus (threaded
separately here) and the 8-bit device address. -/
structure TouchIC where
  addr : Nat
deriving DecidableEq, Repr

/-- `pub struct Point { x: u16, y: u16 }`. -/
structure Point where
  x : Nat
  y : Nat
deriving DecidableEq, Repr

/-- `pub struct Capabilities`. -/
structure Capabilities where
  max_touches : Nat
  max_x : Nat
  max_y : Nat
  smart_wake_up : Bool
deriving DecidableEq, Repr

/-- `pub enum GestureType` with the 13 variants of the source. -/
inductive GestureType where
  | None
  | DoubleTab
  | ZoomIn
  | ZoomOut
  | SlideLeftToRight
  | SlideRightToLeft
  | SlideTopToBottom
  | SlideBottomToTop
  | Palm
  | SingleTap
  | LongPress
  | EndOfLongPress
  | Drag
deriving DecidableEq, Repr

/-- `pub struct GestureInfo`. -/
structure GestureInfo where
  gesture_type : GestureType
  proximity : Bool
  water : Bool
deriving DecidableEq, Repr

/-- `GestureType::from_u8`: match on `raw & 0x0f`; the wildcard arm is
`unreachable!()`, which panics, modelled as `Option.none`. -/
def GestureType.from_u8 (raw : Nat) : Option GestureType :=
  match raw &&& 0x0f with
  | 0 => some .None
  | 1 => some .DoubleTab
  | 2 => some .ZoomIn
  | 3 => some .ZoomOut
  | 4 => some .SlideLeftToRight
  | 5 => some .SlideRightToLeft
  | 6 => some .SlideTopToBottom
  | 7 => some .SlideBottomToTop
  | 8 => some .Palm
  | 9 => some .SingleTap
  | 10 => some .LongPress
  | 11 => some .EndOfLongPress
  | 12 => some .Drag
  | _ => Option.none

/-- The bytes delivered into a zero-initialised buffer of length `len`:
each delivered byte is a `u8` (mod 256), missing bytes stay 0. -/
def fill : List Nat → Nat → List Nat
  | _, 0 => []
  | [], n + 1 => 0 :: fill [] n
  | b :: bs, n + 1 => b % 256 :: fill bs n

/-- `self.i2c.write_read(self.addr, wbytes, &mut buf)` with `buf` of
length `len`: consume one oracle response, log the transaction. -/
def write_read (ic : TouchIC) (bus : Bus) (wbytes : List Nat) (len : Nat) :
    Outcome (List Nat) × Bus :=
  match bus.pending with
  | [] => (.noResponse, bus)
  | r :: rest =>
    let bus' : Bus := ⟨rest, bus.log ++ [⟨ic.addr, wbytes, len⟩]⟩
    match r with
    | .ok bytes => (.ok (fill bytes len), bus')
    | .err e => (.err e, bus')

/-- Sequencing with the `?` operator: propagate any non-`Ok` outcome. -/
def step {α β : Type} (r : Outcome α × Bus) (f : α → Bus → Outcome β × Bus) :
    Outcome β × Bus :=
  match r with
  | (.ok a, bus) => f a bus
  | (.err e, bus) => (.err e, bus)
  | (.panicked, bus) => (.panicked, bus)
  | (.noResponse, bus) => (.noResponse, bus)

/-- `TouchIC::new`. -/
def TouchIC.new (addr : Nat) : TouchIC := ⟨addr⟩

/-- `TouchIC::new_default`. -/
def TouchIC.new_default : TouchIC := TouchIC.new DEFAULT_ADDR

/-- `TouchIC::read_reg8`: read one byte from register `reg`. -/
def read_reg8 (ic : TouchIC) (bus : Bus) (reg : Nat) : Outcome Nat × Bus :=
  step (write_read ic bus [reg] 1) fun buf bus' => (.ok (buf.getD 0 0), bus')

/-- The `while status & 0xf0 != 0` loop of `TouchIC::wait_normal_status`,
with the remaining oracle responses made explicit (each iteration consumes
one response, so the recursion is structural on `pending`). -/
def wait_loop (ic : TouchIC) (pending : List Response) (log : List Transaction)
    (status : Nat) : Outcome Unit × Bus :=
  if status &&& 0xf0 = 0 then (.ok (), ⟨pending, log⟩)
  else
    match pending with
    | [] => (.noResponse, ⟨[], log⟩)
    | .err e :: rest => (.err e, ⟨rest, log ++ [⟨ic.addr, [regs.STATUS], 1⟩]⟩)
    | .ok bytes :: rest =>
      wait_loop ic rest (log ++ [⟨ic.addr, [regs.STATUS], 1⟩])
        ((fill bytes 1).getD 0 0)

/-- `TouchIC::wait_normal_status`: read STATUS once, then loop while the
upper nibble is non-zero. -/
def wait_normal_status (ic : TouchIC) (bus : Bus) : Outcome Unit × Bus :=
  step (read_reg8 ic bus regs.STATUS) fun status bus' =>
    wait_loop ic bus'.pending bus'.log status

/-- `TouchIC::init`. -/
def init (ic : TouchIC) (bus : Bus) : Outcome Unit × Bus :=
  step (wait_normal_status ic bus) fun _ bus' => (.ok (), bus')

/-- `TouchIC::get_gesture_info`. -/
def get_gesture_info (ic : TouchIC) (bus : Bus) : Outcome GestureInfo × Bus :=
  step (read_reg8 ic bus regs.ADVANCED_TOUCH_INFO) fun raw bus' =>
    match GestureType.from_u8 raw with
    | some g =>
      (.ok ⟨g, (raw &&& 0b01000000) != 0, (raw &&& 0b00100000) != 0⟩, bus')
    | Option.none => (.panicked, bus')

/-- `TouchIC::get_point`. -/
def get_point (ic : TouchIC) (bus : Bus) (nth : Nat) :
    Outcome (Option Point) × Bus :=
  if nth > 9 then (.ok Option.none, bus)
  else
    step (write_read ic bus [0x12 + 4 * nth] 4) fun buf bus' =>
      if (buf.getD 0 0) >>> 7 = 0 then (.ok Option.none, bus')
      else
        let x := ((buf.getD 0 0 &&& 0b01110000) <<< 4) ||| buf.getD 1 0
        let y := ((buf.getD 0 0 &&& 0b00001111) <<< 8) ||| buf.getD 2 0
        (.ok (some ⟨x, y⟩), bus')

/-- `TouchIC::get_point0`. -/
def get_point0 (ic : TouchIC) (bus : Bus) : Outcome (Option Point) × Bus :=
  get_point ic bus 0

/-- `TouchIC::get_point1`. -/
def get_point1 (ic : TouchIC) (bus : Bus) : Outcome (Option Point) × Bus :=
  get_point ic bus 1

/-- `u16::from_be_bytes [b0, b1]` for bytes: big-endian recombination. -/
def u16_from_be_bytes (b0 b1 : Nat) : Nat := b0 * 256 + b1

/-- `TouchIC::get_sensor_count`. -/
def get_sensor_count (ic : TouchIC) (bus : Bus) : Outcome Nat × Bus :=
  step (write_read ic bus [regs.SENSING_COUNTER_L] 2) fun buf bus' =>
    (.ok (u16_from_be_bytes (buf.getD 0 0) (buf.getD 1 0)), bus')

/-- `TouchIC::get_capabilities`. -/
def get_capabilities (ic : TouchIC) (bus : Bus) : Outcome Capabilities × Bus :=
  step (read_reg8 ic bus regs.CONTACT_COUNT_MAX) fun max_contacts bus1 =>
  step (read_reg8 ic bus1 regs.MISC_INFO) fun misc_info bus2 =>
  step (write_read ic bus2 [regs.XY_RESOLUTION_H] 3) fun buf bus3 =>
    let x_res := ((buf.getD 0 0 &&& 0b01110000) <<< 4) ||| buf.getD 1 0
    let y_res := ((buf.getD 0 0 &&& 0b00001111) <<< 8) ||| buf.getD 2 0
    (.ok ⟨max_contacts, x_res, y_res, (misc_info &&& 0b10000000) != 0⟩, bus3)

/-- The STATUS-poll transaction that `read_reg8 ic bus regs.STATUS` logs. -/
def statusTx (ic : TouchIC) : Transaction := ⟨ic.addr, [regs.STATUS], 1⟩

/-- Modelled from the spec: the fixed gesture table of §3 (the spec's
`DoubleTap` is the source's `DoubleTab` variant), indexed by the 4-bit
gesture code.  Used to compare the source decoder against the spec's
table. -/
def spec_gesture_table (code : Nat) : GestureType :=
  match code with
  | 0 => .None
  | 1 => .DoubleTab
  | 2 => .ZoomIn
  | 3 => .ZoomOut
  | 4 => .SlideLeftToRight
  | 5 => .SlideRightToLeft
  | 6 => .SlideTopToBottom
  | 7 => .SlideBottomToTop
  | 8 => .Palm
  | 9 => .SingleTap
  | 10 => .LongPress
  | 11 => .EndOfLongPress
  | _ => .Drag

/-! ### Helper lemmas -/

theorem fill_getD_lt : ∀ (bytes : List Nat) (len i : Nat),
    (fill bytes len).getD i 0 < 256 := by
  intro bytes len
  induction len generalizing bytes with
  | zero => intro i; simp [fill]
  | succ n ih =>
    intro i
    cases bytes with
    | nil =>
      cases i with
      | zero => simp [fill]
      | succ j => simpa [fill] using ih [] j
    | cons b bs =>
      cases i with
      | zero => simp [fill]; omega
      | succ j => simpa [fill] using ih bs j

theorem and112_shl4_eq : ∀ b < 256,
    ((b &&& 112) <<< 4) = (((b >>> 4) &&& 7) <<< 8) := by decide

theorem gesture_decode_eq : ∀ raw < 256, raw % 16 ≤ 12 →
    GestureType.from_u8 raw = some (spec_gesture_table (raw % 16)) ∧
    ((raw &&& 64) != 0) = decide (raw / 64 % 2 = 1) ∧
    ((raw &&& 32) != 0) = decide (raw / 32 % 2 = 1) := by decide

theorem misc_bit7_eq : ∀ w < 256,
    ((w &&& 128) != 0) = decide (w / 128 % 2 = 1) := by decide

theorem decode_x_le (c0 c1 : Nat) (hc1 : c1 < 256) :
    (((c0 &&& 112) <<< 4) ||| c1) ≤ 2047 := by
  have ha : c0 &&& 112 ≤ 112 := Nat.and_le_right
  have h1 : ((c0 &&& 112) <<< 4) < 2 ^ 11 := by
    rw [Nat.shiftLeft_eq]
    have e4 : (2 : Nat) ^ 4 = 16 := by norm_num
    have e11 : (2 : Nat) ^ 11 = 2048 := by norm_num
    rw [e4, e11]; omega
  have h2 : c1 < 2 ^ 11 := by
    have e11 : (2 : Nat) ^ 11 = 2048 := by norm_num
    omega
  have h3 := Nat.or_lt_two_pow h1 h2
  have e11 : (2 : Nat) ^ 11 = 2048 := by norm_num
  rw [e11] at h3
  omega

theorem decode_y_le (c0 c2 : Nat) (hc2 : c2 < 256) :
    (((c0 &&& 15) <<< 8) ||| c2) ≤ 4095 := by
  have ha : c0 &&& 15 ≤ 15 := Nat.and_le_right
  have h1 : ((c0 &&& 15) <<< 8) < 2 ^ 12 := by
    rw [Nat.shiftLeft_eq]
    have e8 : (2 : Nat) ^ 8 = 256 := by norm_num
    have e12 : (2 : Nat) ^ 12 = 4096 := by norm_num
    rw [e8, e12]; omega
  have h2 : c2 < 2 ^ 12 := by
    have e12 : (2 : Nat) ^ 12 = 4096 := by norm_num
    omega
  have h3 := Nat.or_lt_two_pow h1 h2
  have e12 : (2 : Nat) ^ 12 = 4096 := by norm_num
  rw [e12] at h3
  omega

/-! ### Claim theorems -/

/-- Claim C1: the claim is FALSE of the code — the reserved low-nibble codes
13, 14 and 15 reach the `unreachable!()` arm of `GestureType::from_u8`
(modelled as `Option.none`), i.e. the decoder panics there instead of
returning a value, and `get_gesture_info` on such a raw byte panics too. -/
theorem c1_reserved_codes_panic :
    GestureType.from_u8 13 = Option.none ∧
    GestureType.from_u8 14 = Option.none ∧
    GestureType.from_u8 15 = Option.none ∧
    (get_gesture_info ⟨0x55⟩ ⟨[Response.ok [13]], []⟩).1 = Outcome.panicked := by
  decide

/-- Claim C4: for every slot index above 9, `get_point` returns the
successful empty result and leaves the bus untouched: no transaction is
issued and no error can occur. -/
theorem c4_out_of_range_no_point (ic : TouchIC) (bus : Bus) (nth : Nat)
    (h : nth > 9) : get_point ic bus nth = (.ok Option.none, bus) := by
  simp [get_point, h]

theorem c4_witness :
    get_point ⟨0x55⟩ ⟨[Response.ok [0xFF, 1, 2, 3]], []⟩ 10 =
      (.ok Option.none, ⟨[Response.ok [0xFF, 1, 2, 3]], []⟩) :=
  c4_out_of_range_no_point ⟨0x55⟩ ⟨[Response.ok [0xFF, 1, 2, 3]], []⟩ 10
    (by decide)

/-- Claim C5: for every slot index `nth ≤ 9` and a responding bus,
`get_point` issues exactly one read transaction of 4 bytes at register
`0x12 + 4*nth`: it consumes exactly the head response and appends exactly
that one transaction to the log, whether the response is bytes or error. -/
theorem c5_one_read_at_addr (ic : TouchIC) (r : Response) (rest : List Response)
    (log : List Transaction) (nth : Nat) (h : nth ≤ 9) :
    (get_point ic ⟨r :: rest, log⟩ nth).2 =
      ⟨rest, log ++ [⟨ic.addr, [0x12 + 4 * nth], 4⟩]⟩ := by
  have hn : ¬ nth > 9 := by omega
  cases r with
  | ok bytes =>
    simp [get_point, write_read, step, hn]
    split <;> rfl
  | err e => simp [get_point, write_read, step, hn]

theorem c5_witness :
    (get_point ⟨0x55⟩ ⟨[Response.ok [0, 0, 0, 0]], []⟩ 9).2 =
      ⟨[], [⟨0x55, [0x12 + 4 * 9], 4⟩]⟩ :=
  c5_one_read_at_addr ⟨0x55⟩ (Response.ok [0, 0, 0, 0]) [] [] 9 (by decide)

/-- Claim C6: when byte 0 of a contact record has bit 7 clear, `get_point`
returns the successful empty result, whatever the remaining bits and the
other three bytes hold. -/
theorem c6_invalid_contact_no_point (ic : TouchIC) (rest : List Response)
    (log : List Transaction) (nth b0 b1 b2 b3 : Nat) (h : nth ≤ 9)
    (h0 : b0 < 128) :
    (get_point ic ⟨Response.ok [b0, b1, b2, b3] :: rest, log⟩ nth).1 =
      .ok Option.none := by
  have hn : ¬ nth > 9 := by omega
  have hf : fill [b0, b1, b2, b3] 4 = [b0 % 256, b1 % 256, b2 % 256, b3 % 256] :=
    rfl
  have h7 : (b0 % 256) >>> 7 = 0 := by
    rw [Nat.shiftRight_eq_div_pow]
    show b0 % 256 / 128 = 0
    omega
  simp [get_point, write_read, step, hn, hf, h7]

theorem c6_witness :
    (get_point ⟨0x55⟩ ⟨[Response.ok [0x7F, 0xAB, 0xCD, 0xEF]], []⟩ 0).1 =
      .ok Option.none :=
  c6_invalid_contact_no_point ⟨0x55⟩ [] [] 0 0x7F 0xAB 0xCD 0xEF (by decide)
    (by decide)

/-- Claim C2 counterexample: on the record of the claim, byte0 = 0b11010011,
byte1 = 0x2A, byte2 = 0x77, the code decodes X = 0x52A = 1322 (the masked
bits stay in place before the shift, so bits [6:4] land at bits [10:8]),
not X = 90 as the claim states; the decoded point is (1322, 887) ≠ (90, 887). -/
theorem c2_counterexample :
    get_point ⟨0x55⟩ ⟨[Response.ok [0xD3, 0x2A, 0x77, 0x00]], []⟩ 0 =
      (.ok (some ⟨1322, 887⟩), ⟨[], [⟨0x55, [0x12], 4⟩]⟩) ∧
    (⟨1322, 887⟩ : Point) ≠ (⟨90, 887⟩ : Point) := by
  decide

/-- Claim C2 (amended): for a valid record (bit 7 of byte 0 set), X is
bits [6:4] of byte 0 shifted left 8 — the source masks them in place and
shifts the masked byte left 4, `((b0 &&& 0x70) <<< 4)` — OR'd with byte 1,
and Y is bits [3:0] of byte 0 shifted left 8, OR'd with byte 2; on the
claim's record byte0 = 0b11010011, byte1 = 0x2A, byte2 = 0x77 this gives
X = 1322 and Y = 887. -/
theorem c2_point_packing (ic : TouchIC) (rest : List Response)
    (log : List Transaction) (nth b0 b1 b2 b3 : Nat) (h : nth ≤ 9)
    (hb0 : b0 < 256) (hb1 : b1 < 256) (hb2 : b2 < 256) (hb3 : b3 < 256)
    (h7 : 128 ≤ b0) :
    get_point ic ⟨Response.ok [b0, b1, b2, b3] :: rest, log⟩ nth =
      (.ok (some ⟨(((b0 >>> 4) &&& 7) <<< 8) ||| b1,
                  ((b0 &&& 15) <<< 8) ||| b2⟩),
       ⟨rest, log ++ [⟨ic.addr, [0x12 + 4 * nth], 4⟩]⟩) := by
  have hn : ¬ nth > 9 := by omega
  have e0 : b0 % 256 = b0 := Nat.mod_eq_of_lt hb0
  have e1 : b1 % 256 = b1 := Nat.mod_eq_of_lt hb1
  have e2 : b2 % 256 = b2 := Nat.mod_eq_of_lt hb2
  have e3 : b3 % 256 = b3 := Nat.mod_eq_of_lt hb3
  have hf : fill [b0, b1, b2, b3] 4 = [b0, b1, b2, b3] := by
    simp [fill, e0, e1, e2, e3]
  have hbit : ¬ b0 >>> 7 = 0 := by
    rw [Nat.shiftRight_eq_div_pow]
    show ¬ b0 / 128 = 0
    omega
  have hx := and112_shl4_eq b0 hb0
  simp [get_point, write_read, step, hn, hf, hbit, hx]

theorem c2_witness :
    get_point ⟨0x55⟩ ⟨[Response.ok [0xD3, 0x2A, 0x77, 0x00]], []⟩ 0 =
      (.ok (some ⟨1322, 887⟩), ⟨[], [⟨0x55, [0x12], 4⟩]⟩) :=
  (c2_point_packing ⟨0x55⟩ [] [] 0 0xD3 0x2A 0x77 0x00 (by decide) (by decide)
    (by decide) (by decide) (by decide) (by decide)).trans (by decide)

/-- Claim C3 counterexample: on raw byte 0b01100101 bit 5 is set, so the
decoded GestureInfo is (SlideRightToLeft, proximity = true, water = true),
not water = false as the claim states. -/
theorem c3_counterexample :
    (get_gesture_info ⟨0x55⟩ ⟨[Response.ok [0b01100101]], []⟩).1 =
      Outcome.ok ⟨.SlideRightToLeft, true, true⟩ ∧
    (get_gesture_info ⟨0x55⟩ ⟨[Response.ok [0b01100101]], []⟩).1 ≠
      Outcome.ok ⟨.SlideRightToLeft, true, false⟩ := by
  decide

/-- Claim C3 (amended): `get_gesture_info` decodes the low 4 bits through
the fixed gesture table of §3, bit 6 as the proximity flag and bit 5 as the
water flag; on raw byte 0b01100101 both bit 6 and bit 5 are set, so it
returns gesture_type = SlideRightToLeft, proximity = true and water = true
(the claim's water = false is wrong for that byte). -/
theorem c3_gesture_info_decode (ic : TouchIC) (rest : List Response)
    (log : List Transaction) (raw : Nat) (h : raw < 256) (hg : raw % 16 ≤ 12) :
    get_gesture_info ic ⟨Response.ok [raw] :: rest, log⟩ =
      (.ok ⟨spec_gesture_table (raw % 16), decide (raw / 64 % 2 = 1),
            decide (raw / 32 % 2 = 1)⟩,
       ⟨rest, log ++ [⟨ic.addr, [regs.ADVANCED_TOUCH_INFO], 1⟩]⟩) := by
  obtain ⟨hd, hp, hw⟩ := gesture_decode_eq raw h hg
  have e : raw % 256 = raw := Nat.mod_eq_of_lt h
  have hf : fill [raw] 1 = [raw] := by simp [fill, e]
  simp [get_gesture_info, read_reg8, write_read, step, hf, hd, hp, hw]

theorem c3_witness :
    get_gesture_info ⟨0x55⟩ ⟨[Response.ok [0b01100101]], []⟩ =
      (.ok ⟨.SlideRightToLeft, true, true⟩, ⟨[], [⟨0x55, [0x10], 1⟩]⟩) :=
  (c3_gesture_info_decode ⟨0x55⟩ [] [] 0b01100101 (by decide)
    (by decide)).trans (by decide)

/-- Claim C10: every point that `get_point` actually returns satisfies
x ≤ 0x7FF (11 bits) and y ≤ 0xFFF (12 bits), for every bus state, slot
index and register byte values. -/
theorem c10_point_bounds (ic : TouchIC) (bus : Bus) (nth : Nat) (p : Point)
    (bus' : Bus) (h : get_point ic bus nth = (.ok (some p), bus')) :
    p.x ≤ 0x7FF ∧ p.y ≤ 0xFFF := by
  obtain ⟨pending, log⟩ := bus
  by_cases hn : nth > 9
  · simp [get_point, hn] at h
  · cases pending with
    | nil => simp [get_point, write_read, step, hn] at h
    | cons r rest =>
      cases r with
      | err e => simp [get_point, write_read, step, hn] at h
      | ok bytes =>
        have hc0 := fill_getD_lt bytes 4 0
        have hc1 := fill_getD_lt bytes 4 1
        have hc2 := fill_getD_lt bytes 4 2
        simp only [List.getD_eq_getElem?_getD] at hc0 hc1 hc2
        by_cases h7 : (fill bytes 4)[0]?.getD 0 >>> 7 = 0
        · simp [get_point, write_read, step, hn, h7] at h
        · simp [get_point, write_read, step, hn, h7] at h
          obtain ⟨h1, h2⟩ := h
          subst h1
          exact ⟨decode_x_le _ _ hc1, decode_y_le _ _ hc2⟩

/-- Claim C7: `get_sensor_count` reads 2 bytes starting at the
sensing-counter low register 0x07 and combines them big-endian: for bytes
[hi, lo] the result is hi*256 + lo (on [0x01, 0x2C] it returns 300:
witness). -/
theorem c7_sensor_count_be (ic : TouchIC) (rest : List Response)
    (log : List Transaction) (hi lo : Nat) (hh : hi < 256) (hl : lo < 256) :
    get_sensor_count ic ⟨Response.ok [hi, lo] :: rest, log⟩ =
      (.ok (hi * 256 + lo),
       ⟨rest, log ++ [⟨ic.addr, [regs.SENSING_COUNTER_L], 2⟩]⟩) := by
  have e0 : hi % 256 = hi := Nat.mod_eq_of_lt hh
  have e1 : lo % 256 = lo := Nat.mod_eq_of_lt hl
  have hf : fill [hi, lo] 2 = [hi, lo] := by simp [fill, e0, e1]
  simp [get_sensor_count, write_read, step, hf, u16_from_be_bytes]

theorem c7_witness :
    get_sensor_count ⟨0x55⟩ ⟨[Response.ok [0x01, 0x2C]], []⟩ =
      (.ok 300, ⟨[], [⟨0x55, [0x07], 2⟩]⟩) :=
  (c7_sensor_count_be ⟨0x55⟩ [] [] 0x01 0x2C (by decide) (by decide)).trans
    (by decide)

/-- Claim C8: `get_capabilities` reads the max-contact-count byte as
max_touches, bit 7 of the misc-info byte as smart_wake_up, and decodes the
3 resolution bytes with the same nibble-split packing as point
coordinates: max_x = bits [6:4] of byte 0 shifted left 8 OR'd with byte 1,
max_y = bits [3:0] of byte 0 shifted left 8 OR'd with byte 2; on the
claim's bytes this yields (10, 316, 2975, true): witness. -/
theorem c8_capabilities_decode (ic : TouchIC) (rest : List Response)
    (log : List Transaction) (m w b0 b1 b2 : Nat) (hm : m < 256)
    (hw : w < 256) (h0 : b0 < 256) (h1 : b1 < 256) (h2 : b2 < 256) :
    get_capabilities ic
        ⟨Response.ok [m] :: Response.ok [w] :: Response.ok [b0, b1, b2] ::
           rest, log⟩ =
      (.ok ⟨m, (((b0 >>> 4) &&& 7) <<< 8) ||| b1, ((b0 &&& 15) <<< 8) ||| b2,
            decide (w / 128 % 2 = 1)⟩,
       ⟨rest, log ++ [⟨ic.addr, [regs.CONTACT_COUNT_MAX], 1⟩,
                      ⟨ic.addr, [regs.MISC_INFO], 1⟩,
                      ⟨ic.addr, [regs.XY_RESOLUTION_H], 3⟩]⟩) := by
  have em : m % 256 = m := Nat.mod_eq_of_lt hm
  have ew : w % 256 = w := Nat.mod_eq_of_lt hw
  have e0 : b0 % 256 = b0 := Nat.mod_eq_of_lt h0
  have e1 : b1 % 256 = b1 := Nat.mod_eq_of_lt h1
  have e2 : b2 % 256 = b2 := Nat.mod_eq_of_lt h2
  have hx := and112_shl4_eq b0 h0
  have hb7 := misc_bit7_eq w hw
  simp [get_capabilities, read_reg8, write_read, step, fill, em, ew, e0, e1,
        e2, hx, hb7]

theorem c8_witness :
    get_capabilities ⟨0x55⟩
        ⟨[Response.ok [10], Response.ok [0x80],
          Response.ok [0x1B, 0x3C, 0x9F]], []⟩ =
      (.ok ⟨10, 316, 2975, true⟩,
       ⟨[], [⟨0x55, [0x3F], 1⟩, ⟨0x55, [0xF0], 1⟩, ⟨0x55, [0x04], 3⟩]⟩) :=
  (c8_capabilities_decode ⟨0x55⟩ [] [] 10 0x80 0x1B 0x3C 0x9F (by decide)
    (by decide) (by decide) (by decide) (by decide)).trans (by decide)

theorem wait_loop_ready (ic : TouchIC) (pending : List Response)
    (log : List Transaction) (s : Nat) (hs : s &&& 0xf0 = 0) :
    wait_loop ic pending log s = (.ok (), ⟨pending, log⟩) := by
  rw [wait_loop.eq_def, if_pos hs]

theorem wait_loop_busy_ok (ic : TouchIC) (bytes : List Nat)
    (rest : List Response) (log : List Transaction) (s : Nat)
    (hs : s &&& 0xf0 ≠ 0) :
    wait_loop ic (Response.ok bytes :: rest) log s =
      wait_loop ic rest (log ++ [statusTx ic]) ((fill bytes 1).getD 0 0) := by
  rw [wait_loop.eq_def, if_neg hs]
  rfl

theorem wait_loop_busy_err (ic : TouchIC) (e : Nat) (rest : List Response)
    (log : List Transaction) (s : Nat) (hs : s &&& 0xf0 ≠ 0) :
    wait_loop ic (Response.err e :: rest) log s =
      (.err e, ⟨rest, log ++ [statusTx ic]⟩) := by
  rw [wait_loop.eq_def, if_neg hs]
  rfl

theorem wait_loop_success (ic : TouchIC) :
    ∀ (pre : List Nat) (log : List Transaction) (s b : Nat)
      (rest : List Response),
      (∀ x ∈ pre, x < 256 ∧ x &&& 0xf0 ≠ 0) → s &&& 0xf0 ≠ 0 →
      b < 256 → b &&& 0xf0 = 0 →
      wait_loop ic
          (pre.map (fun v => Response.ok [v]) ++ Response.ok [b] :: rest)
          log s =
        (.ok (), ⟨rest, log ++ List.replicate (pre.length + 1) (statusTx ic)⟩) := by
  intro pre
  induction pre with
  | nil =>
    intro log s b rest hpre hs hb hb0
    have e : (fill [b] 1).getD 0 0 = b := by simp [fill, Nat.mod_eq_of_lt hb]
    simp only [List.map_nil, List.nil_append]
    rw [wait_loop_busy_ok ic [b] rest log s hs, e,
        wait_loop_ready ic rest (log ++ [statusTx ic]) b hb0]
    simp
  | cons x pre ih =>
    intro log s b rest hpre hs hb hb0
    obtain ⟨hx1, hx2⟩ := hpre x (by simp)
    have hpre' : ∀ y ∈ pre, y < 256 ∧ y &&& 0xf0 ≠ 0 := fun y hy =>
      hpre y (by simp [hy])
    have e : (fill [x] 1).getD 0 0 = x := by simp [fill, Nat.mod_eq_of_lt hx1]
    simp only [List.map_cons, List.cons_append]
    rw [wait_loop_busy_ok ic [x] _ log s hs, e,
        ih (log ++ [statusTx ic]) x b rest hpre' hx2 hb hb0]
    simp [List.replicate_succ, List.append_assoc]

theorem wait_loop_error (ic : TouchIC) :
    ∀ (pre : List Nat) (log : List Transaction) (s e : Nat)
      (rest : List Response),
      (∀ x ∈ pre, x < 256 ∧ x &&& 0xf0 ≠ 0) → s &&& 0xf0 ≠ 0 →
      wait_loop ic
          (pre.map (fun v => Response.ok [v]) ++ Response.err e :: rest)
          log s =
        (.err e, ⟨rest, log ++ List.replicate (pre.length + 1) (statusTx ic)⟩) := by
  intro pre
  induction pre with
  | nil =>
    intro log s e rest hpre hs
    simp only [List.map_nil, List.nil_append]
    rw [wait_loop_busy_err ic e rest log s hs]
    simp
  | cons x pre ih =>
    intro log s e rest hpre hs
    obtain ⟨hx1, hx2⟩ := hpre x (by simp)
    have hpre' : ∀ y ∈ pre, y < 256 ∧ y &&& 0xf0 ≠ 0 := fun y hy =>
      hpre y (by simp [hy])
    have ex : (fill [x] 1).getD 0 0 = x := by simp [fill, Nat.mod_eq_of_lt hx1]
    simp only [List.map_cons, List.cons_append]
    rw [wait_loop_busy_ok ic [x] _ log s hs, ex,
        ih (log ++ [statusTx ic]) x e rest hpre' hx2]
    simp [List.replicate_succ, List.append_assoc]

/-- Claim C9: `init` polls the status register 0x01.  For any run whose
status reads are a busy prefix `pre` (upper nibble non-zero) followed by a
ready byte `b` (upper nibble zero), `init` returns success after exactly
`pre.length + 1` status reads — the log grows by exactly that many STATUS
transactions and the rest of the oracle is untouched; and if a bus error
follows the busy prefix instead, `init` aborts immediately with that error
after the same number of reads. -/
theorem c9_init_polls_status (ic : TouchIC) (log : List Transaction)
    (pre : List Nat) (rest : List Response)
    (hpre : ∀ x ∈ pre, x < 256 ∧ x &&& 0xf0 ≠ 0) :
    (∀ b, b < 256 → b &&& 0xf0 = 0 →
      init ic
          ⟨pre.map (fun v => Response.ok [v]) ++ Response.ok [b] :: rest,
           log⟩ =
        (.ok (),
         ⟨rest, log ++ List.replicate (pre.length + 1) (statusTx ic)⟩)) ∧
    (∀ e,
      init ic
          ⟨pre.map (fun v => Response.ok [v]) ++ Response.err e :: rest,
           log⟩ =
        (.err e,
         ⟨rest, log ++ List.replicate (pre.length + 1) (statusTx ic)⟩)) := by
  constructor
  · intro b hb hb0
    cases pre with
    | nil =>
      have e' : (fill [b] 1)[0]?.getD 0 = b := by
        simp [fill, Nat.mod_eq_of_lt hb]
      have hrd := wait_loop_ready ic rest (log ++ [statusTx ic]) b hb0
      simp only [statusTx] at hrd
      simp [init, wait_normal_status, read_reg8, write_read, step, e', hrd,
            statusTx]
    | cons x pre' =>
      obtain ⟨hx1, hx2⟩ := hpre x (by simp)
      have hpre' : ∀ y ∈ pre', y < 256 ∧ y &&& 0xf0 ≠ 0 := fun y hy =>
        hpre y (by simp [hy])
      have e : (fill [x] 1).getD 0 0 = x := by simp [fill, Nat.mod_eq_of_lt hx1]
      have e' : (fill [x] 1)[0]?.getD 0 = x := by
        simpa [List.getD_eq_getElem?_getD] using e
      have hrun := wait_loop_success ic pre'
        (log ++ [statusTx ic]) x b rest hpre' hx2 hb hb0
      simp only [statusTx] at hrun
      simp only [List.map_cons, List.cons_append]
      simp [init, wait_normal_status, read_reg8, write_read, step, e, e',
            statusTx, hrun, List.replicate_succ, List.append_assoc]
  · intro er
    cases pre with
    | nil =>
      simp [init, wait_normal_status, read_reg8, write_read, step, statusTx]
    | cons x pre' =>
      obtain ⟨hx1, hx2⟩ := hpre x (by simp)
      have hpre' : ∀ y ∈ pre', y < 256 ∧ y &&& 0xf0 ≠ 0 := fun y hy =>
        hpre y (by simp [hy])
      have e : (fill [x] 1).getD 0 0 = x := by simp [fill, Nat.mod_eq_of_lt hx1]
      have e' : (fill [x] 1)[0]?.getD 0 = x := by
        simpa [List.getD_eq_getElem?_getD] using e
      have hrun := wait_loop_error ic pre'
        (log ++ [statusTx ic]) x er rest hpre' hx2
      simp only [statusTx] at hrun
      simp only [List.map_cons, List.cons_append]
      simp [init, wait_normal_status, read_reg8, write_read, step, e, e',
            statusTx, hrun, List.replicate_succ, List.append_assoc]

theorem c9_witness :
    init ⟨0x55⟩ ⟨[Response.ok [0x10], Response.ok [0x05],
                  Response.ok [0x99]], []⟩ =
      (.ok (), ⟨[Response.ok [0x99]],
                List.replicate 2 (statusTx ⟨0x55⟩)⟩) := by
  have h := (c9_init_polls_status ⟨0x55⟩ [] [0x10] [Response.ok [0x99]]
    (by decide)).1 0x05 (by decide) (by decide)
  simpa using h

theorem c10_witness :
    (⟨2047, 4095⟩ : Point).x ≤ 0x7FF ∧ (⟨2047, 4095⟩ : Point).y ≤ 0xFFF :=
  c10_point_bounds ⟨0x55⟩ ⟨[Response.ok [0xFF, 0xFF, 0xFF, 0xFF]], []⟩ 0
    ⟨2047, 4095⟩ ⟨[], [⟨0x55, [0x12], 4⟩]⟩ (by decide)
